import Mathlib

/-!
Shallow embedding of candle-examples/examples/reinforcement-learning/gym_env.rs.

The file under verification is a thin adapter around the Python API of
Gymnasium, accessed through pyo3.  The Python runtime is external to the
program, so it is modelled as an oracle: every pyo3 operation the source
performs (importing the module, `getattr`, calling `make`/`reset`/`step`,
`get_item`, `extract`) is a field of an oracle structure returning
`Except PyErr _`.  The adapter's own code is translated statement by
statement from the Rust source.  Rust panics (Vec indexing out of bounds)
are modelled as a third outcome, distinct from returning an error value.
-/

namespace GymAdapter

/-- Opaque payload of a 32-bit float crossing the boundary.  No arithmetic is
ever performed on observations by the adapter; values are only moved. -/
structure F32 where
  bits : Nat
deriving DecidableEq, Repr

/-- Opaque payload of a 64-bit float (the reward).  Only moved, never computed
with. -/
structure F64 where
  bits : Nat
deriving DecidableEq, Repr

/-- An opaque Python exception (`pyo3::PyErr`): the underlying cause that the
adapter wraps. -/
structure PyErr where
  msg : String
deriving DecidableEq, Repr

/-- Python values as seen through the narrow marshaling surface the adapter
uses: ints, floats, booleans, flat float32 sequences (numpy observation
arrays), tuples, and anything else (e.g. the info dict) as an opaque tag. -/
inductive PyVal where
  | int (n : Int)
  | f64 (x : F64)
  | pybool (b : Bool)
  | f32seq (xs : List F32)
  | tuple (xs : List PyVal)
  | other (tag : String)
deriving Repr

/-- Result of a single Python-level operation (`pyo3::PyResult`). -/
abbrev PyResult (α : Type) := Except PyErr α

/-- Model of `val.extract::<usize>()`: succeeds on a non-negative Python int. -/
def extractUsize : PyVal → PyResult Nat
  | .int n => if 0 ≤ n then .ok n.toNat else .error ⟨"OverflowError: can't convert negative int to unsigned"⟩
  | _ => .error ⟨"TypeError: 'usize' expected"⟩

/-- Model of `.extract::<Vec<usize>>()` on a shape value: a tuple of
non-negative ints. -/
def extractUsizeVec : PyVal → PyResult (List Nat)
  | .tuple xs => xs.mapM extractUsize
  | _ => .error ⟨"TypeError: 'Vec<usize>' expected"⟩

/-- Model of `.extract::<Vec<f32>>()` on an observation: a flat float32
sequence. -/
def extractF32Vec : PyVal → PyResult (List F32)
  | .f32seq xs => .ok xs
  | _ => .error ⟨"TypeError: 'Vec<f32>' expected"⟩

/-- Model of `.extract::<f64>()` on the reward. -/
def extractF64 : PyVal → PyResult F64
  | .f64 x => .ok x
  | _ => .error ⟨"TypeError: 'f64' expected"⟩

/-- Model of `.extract::<bool>()` on the done flag. -/
def extractBool : PyVal → PyResult Bool
  | .pybool b => .ok b
  | _ => .error ⟨"TypeError: 'bool' expected"⟩

/-- Model of `obj.get_item(i)` on a tuple-like Python value. -/
def get_item (v : PyVal) (i : Nat) : PyResult PyVal :=
  match v with
  | .tuple xs =>
      match xs.get? i with
      | some x => .ok x
      | none => .error ⟨"IndexError: tuple index out of range"⟩
  | _ => .error ⟨"TypeError: object is not subscriptable"⟩

/-- Model of a Gymnasium space object: the results of `getattr("n")` and
`getattr("shape")` on it. -/
structure SpaceObj where
  n : PyResult PyVal
  shape : PyResult PyVal

/-- Model of the environment object returned by `gymnasium.make`: the results
of its attribute accesses and method calls.  `reset` receives positional
arguments and keyword arguments (name/value pairs), as in
`call_method(py, "reset", (), Some(kwargs))`; `step` receives the single
positional marshaled action. -/
structure EnvObj where
  action_space : PyResult SpaceObj
  observation_space : PyResult SpaceObj
  reset : List PyVal → List (String × PyVal) → PyResult PyVal
  step : PyVal → PyResult PyVal

/-- Model of the `gymnasium` module object: the result of `getattr("make")`,
which when successful is the factory from an environment name to an
environment object. -/
structure PyGymModule where
  make : PyResult (String → PyResult EnvObj)

/-- Model of the Python runtime as reachable from `Python::with_gil`: the
result of `py.import("gymnasium")`. -/
structure PyRuntime where
  gymImport : PyResult PyGymModule

/-- How a `with_gil` closure can fail to produce a value: by returning a
`PyErr` (the `?` operator) or by a Rust panic (e.g. out-of-bounds `Vec`
indexing), which is not an error value at all. -/
inductive GilFail where
  | py (e : PyErr)
  | panicked (msg : String)
deriving DecidableEq, Repr

/-- Computation inside a `with_gil` closure. -/
abbrev GilRes (α : Type) := Except GilFail α

/-- Lift a Python-level result into the closure: `?` propagates the PyErr. -/
def pyM {α : Type} : PyResult α → GilRes α
  | .ok a => .ok a
  | .error e => .error (.py e)

/-- The `candle::Error` values the adapter can return: either
`candle::Error::wrap` applied to a `PyErr` — the ExternalCallError of the
spec, produced by the helper `w` — or the tensor library's own native
error. -/
inductive CandleErr where
  | wrapped (e : PyErr)
  | native (msg : String)
deriving DecidableEq, Repr

/-- True exactly on a wrapped external error (an ExternalCallError). -/
def CandleErr.isWrapped : CandleErr → Bool
  | .wrapped _ => true
  | .native _ => false

/-- Observable outcome of calling an adapter method: a value, an error value
of type `candle::Error`, or a Rust panic (which unwinds, returning nothing). -/
inductive Outcome (α : Type) where
  | ok (a : α)
  | err (e : CandleErr)
  | panicked (msg : String)
deriving Repr

/-- Run a `with_gil` closure and apply `.map_err(w)` to its result, as the
source does; a panic inside the closure propagates as a panic. -/
def runGil {α : Type} : GilRes α → Outcome α
  | .ok a => .ok a
  | .error (.py e) => .err (.wrapped e)
  | .error (.panicked m) => .panicked m

/-- True exactly on an error outcome that is a wrapped external error. -/
def Outcome.isErrWrapped {α : Type} : Outcome α → Bool
  | .err (.wrapped _) => true
  | _ => false

/-- The devices of the host tensor library that the adapter uses. -/
inductive Device where
  | Cpu
deriving DecidableEq, Repr

/-- Modelled from the spec: the host tensor type (candle's `Tensor`, which is
outside this fragment) — "the host numeric-array type into which raw
floating-point sequences are converted".  A flat f32 sequence becomes a
rank-1 tensor holding exactly that data on the given device. -/
structure Tensor where
  data : List F32
  device : Device
deriving DecidableEq, Repr

/-- Element count of a tensor built from a flat sequence. -/
def Tensor.elem_count (t : Tensor) : Nat := t.data.length

/-- Modelled from the spec: `Tensor::new(v, &Device::Cpu)` on a flat `Vec<f32>`
— conversion of "the extracted numeric sequence into the host tensor type on
the default (CPU) device".  The adapter's methods are parametric in this
constructor (any `tensorNew` with the host library's error type); this is the
spec-faithful instance, which succeeds with a tensor holding the sequence. -/
def tensorNewModel (xs : List F32) (d : Device) : Except String Tensor :=
  .ok { data := xs, device := d }

/-- The return value for a step (struct `Step<A>` of the source). -/
structure Step (A : Type) where
  obs : Tensor
  action : A
  reward : F64
  is_done : Bool
deriving Repr

/-- `Step::copy_with_obs`: a copy of this step changing the observation
tensor (cloning the argument; a clone of a pure value is the value). -/
def Step.copy_with_obs {A : Type} (s : Step A) (obs : Tensor) : Step A :=
  { obs := obs
    action := s.action
    reward := s.reward
    is_done := s.is_done }

/-- The adapter (struct `GymEnv` of the source): the owned environment handle
and the two metadata fields cached at construction. -/
structure GymEnv where
  env : EnvObj
  action_space : Nat
  observation_space : List Nat

/-- `GymEnv::new`, translated statement by statement from the source: the
gymnasium module is imported, `make` fetched and called on the name, then the
code reads the action space
(preferring `n`, falling back to `shape[0]` — Rust `Vec` indexing, which
panics on an empty vector), read the observation space shape, and build the
adapter.  The whole closure runs under the GIL and its `PyErr` is wrapped by
`w` at the end. -/
def GymEnv.new (rt : PyRuntime) (name : String) : Outcome GymEnv :=
  runGil (do
    let gym ← pyM rt.gymImport
    let make ← pyM gym.make
    let env ← pyM (make name)
    let aso ← pyM env.action_space
    let actionSpaceVal ←
      match aso.n with
      | .ok val => pyM (extractUsize val)
      | .error _ => do
          let shp ← pyM aso.shape
          let asv ← pyM (extractUsizeVec shp)
          match asv with
          | [] => Except.error (.panicked "index out of bounds: the len is 0 but the index is 0")
          | a :: _ => pure a
    let oso ← pyM env.observation_space
    let oshape ← pyM oso.shape
    let obsSpaceVal ← pyM (extractUsizeVec oshape)
    pure { env := env
           action_space := actionSpaceVal
           observation_space := obsSpaceVal })

/-- `GymEnv::reset`, translated from the source: under the GIL, call the
environment's `reset` method with no positional arguments and the seed as the
keyword argument named "seed", take item 0 of the returned pair, extract it as
a flat `Vec<f32>`; the closure's `PyErr` is wrapped by `w`; then, outside the
GIL, build a tensor on the CPU device with the host constructor `tensorNew`,
whose own error propagates unwrapped. -/
def GymEnv.reset (tensorNew : List F32 → Device → Except String Tensor)
    (g : GymEnv) (seed : Nat) : Outcome Tensor :=
  match runGil (do
      let obs ← pyM (g.env.reset [] [("seed", PyVal.int (Int.ofNat seed))])
      let item0 ← pyM (get_item obs 0)
      pyM (extractF32Vec item0)) with
  | .ok obs =>
      match tensorNew obs Device.Cpu with
      | .ok t => .ok t
      | .error m => .err (.native m)
  | .err e => .err e
  | .panicked m => .panicked m

/-- `GymEnv::step`, translated from the source: under the GIL, call the
environment's `step` method with a clone of the action marshaled through its
conversion (`IntoPy`, modelled by `toPy`; cloning a pure value is the value),
extract items 0, 1, 2 of the returned tuple as `Vec<f32>`, `f64`, `bool`;
the closure's `PyErr` is wrapped by `w`; then build the observation tensor on
the CPU device and assemble the `Step` carrying the caller's own action. -/
def GymEnv.step {A : Type} (tensorNew : List F32 → Device → Except String Tensor)
    (toPy : A → PyVal) (g : GymEnv) (action : A) : Outcome (Step A) :=
  match runGil (do
      let st ← pyM (g.env.step (toPy action))
      let item0 ← pyM (get_item st 0)
      let obs ← pyM (extractF32Vec item0)
      let item1 ← pyM (get_item st 1)
      let reward ← pyM (extractF64 item1)
      let item2 ← pyM (get_item st 2)
      let done ← pyM (extractBool item2)
      pure (obs, reward, done)) with
  | .ok (obs, reward, done) =>
      match tensorNew obs Device.Cpu with
      | .ok t => .ok { obs := t, action := action, reward := reward, is_done := done }
      | .error m => .err (.native m)
  | .err e => .err e
  | .panicked m => .panicked m

/-- `GymEnv::action_space`: the number of allowed actions — returns the
cached field. -/
def GymEnv.actionSpace (g : GymEnv) : Nat := g.action_space

/-- `GymEnv::observation_space`: the shape of the observation tensors —
returns (a read-only view of) the cached field. -/
def GymEnv.observationSpace (g : GymEnv) : List Nat := g.observation_space

/-! ### Sessions

The adapter's methods take `&self`: none of them can replace the adapter the
caller holds.  A session performs an arbitrary sequence of `reset`/`step`
calls against an adapter and yields the adapter the caller holds afterwards;
each call is performed (its outcome computed from the oracle) and its result
handed to the caller, never back into the adapter. -/

/-- One call a caller can make between accessor reads. -/
inductive Call (A : Type) where
  | reset (seed : Nat)
  | step (a : A)

/-- Perform one call against the adapter; the caller keeps the same adapter
(`&self` receiver — the method cannot replace it). -/
def performCall {A : Type} (tensorNew : List F32 → Device → Except String Tensor)
    (toPy : A → PyVal) (g : GymEnv) : Call A → GymEnv
  | .reset seed =>
      match GymEnv.reset tensorNew g seed with
      | _ => g
  | .step a =>
      match GymEnv.step tensorNew toPy g a with
      | _ => g

/-- The adapter the caller holds after an arbitrary sequence of calls. -/
def runSession {A : Type} (tensorNew : List F32 → Device → Except String Tensor)
    (toPy : A → PyVal) (g : GymEnv) : List (Call A) → GymEnv
  | [] => g
  | c :: cs => runSession tensorNew toPy (performCall tensorNew toPy g c) cs

/-! ### Concrete oracle instances, used by witnesses and counterexamples -/

/-- A well-behaved discrete action space exposing `n == 4`. -/
def discreteSpace : SpaceObj :=
  { n := .ok (.int 4)
    shape := .ok (.tuple []) }

/-- An action space exposing no `n` attribute, only `shape == (6,)`. -/
def shapeOnlySpace : SpaceObj :=
  { n := .error ⟨"AttributeError: 'Box' object has no attribute 'n'"⟩
    shape := .ok (.tuple [.int 6]) }

/-- A malformed action space: no `n` attribute and an empty shape sequence. -/
def emptyShapeSpace : SpaceObj :=
  { n := .error ⟨"AttributeError: 'Box' object has no attribute 'n'"⟩
    shape := .ok (.tuple []) }

/-- An observation space with shape `(2, 2)`. -/
def obsSpace22 : SpaceObj :=
  { n := .error ⟨"AttributeError: 'Box' object has no attribute 'n'"⟩
    shape := .ok (.tuple [.int 2, .int 2]) }

/-- A well-behaved environment: discrete action space with `n == 4`,
observation shape `(2, 2)`, `reset` returning a (4-element observation, info)
pair and `step` returning the Gymnasium 5-tuple
(observation, reward, terminated, truncated, info). -/
def goodEnv : EnvObj :=
  { action_space := .ok discreteSpace
    observation_space := .ok obsSpace22
    reset := fun _ _ => .ok (.tuple [.f32seq [⟨1⟩, ⟨2⟩, ⟨3⟩, ⟨4⟩], .other "info"])
    step := fun _ => .ok (.tuple
      [.f32seq [⟨5⟩, ⟨6⟩, ⟨7⟩, ⟨8⟩], .f64 ⟨42⟩, .pybool false, .pybool true, .other "info"]) }

/-- A runtime whose factory returns `goodEnv` for every name. -/
def goodRt : PyRuntime :=
  { gymImport := .ok { make := .ok (fun _ => .ok goodEnv) } }

/-- The adapter as built by `GymEnv.new goodRt`. -/
def goodGym : GymEnv :=
  { env := goodEnv
    action_space := 4
    observation_space := [2, 2] }

/-- An environment like `goodEnv` but whose action space exposes only
`shape == (6,)`. -/
def shapeOnlyEnv : EnvObj :=
  { goodEnv with action_space := .ok shapeOnlySpace }

/-- A runtime whose factory returns `shapeOnlyEnv` for every name. -/
def shapeOnlyRt : PyRuntime :=
  { gymImport := .ok { make := .ok (fun _ => .ok shapeOnlyEnv) } }

/-- An environment whose action space has no `n` and an empty shape. -/
def emptyShapeEnv : EnvObj :=
  { goodEnv with action_space := .ok emptyShapeSpace }

/-- A runtime whose factory returns `emptyShapeEnv` for every name. -/
def emptyShapeRt : PyRuntime :=
  { gymImport := .ok { make := .ok (fun _ => .ok emptyShapeEnv) } }

/-- A runtime whose factory rejects every name, as `gymnasium.make` does for
an unregistered environment id. -/
def missingEnvRt : PyRuntime :=
  { gymImport := .ok { make := .ok (fun name =>
      .error ⟨"NameNotFound: Environment " ++ name ++ " doesn't exist"⟩) } }

/-- The adapter as built by `GymEnv.new shapeOnlyRt`. -/
def shapeOnlyGym : GymEnv :=
  { env := shapeOnlyEnv
    action_space := 6
    observation_space := [2, 2] }

/-- An environment whose `reset` and `step` methods raise. -/
def failEnv : EnvObj :=
  { goodEnv with
    reset := fun _ _ => .error ⟨"RuntimeError: reset raised"⟩
    step := fun _ => .error ⟨"RuntimeError: step raised"⟩ }

/-- The adapter holding `failEnv`. -/
def failGym : GymEnv := { goodGym with env := failEnv }

/-- An environment whose `step` returns a 1-tuple, so that extraction at
index 1 fails. -/
def shortTupleEnv : EnvObj :=
  { goodEnv with step := fun _ => .ok (.tuple [.f32seq [⟨9⟩]]) }

/-- The adapter holding `shortTupleEnv`. -/
def shortTupleGym : GymEnv := { goodGym with env := shortTupleEnv }

/-- An environment whose `step` returns a 3-tuple whose element at index 1 is
not extractable as an f64. -/
def illTypedEnv : EnvObj :=
  { goodEnv with
    step := fun _ => .ok (.tuple [.f32seq [⟨9⟩], .other "not-a-float", .pybool false]) }

/-- The adapter holding `illTypedEnv`. -/
def illTypedGym : GymEnv := { goodGym with env := illTypedEnv }

/-- A host tensor constructor that always fails, standing for a native tensor
library error. -/
def failTensorNew : List F32 → Device → Except String Tensor :=
  fun _ _ => .error "shape mismatch"

/-- Marshaling of a natural-number action into a Python int. -/
def pyOfNat (n : Nat) : PyVal := .int (Int.ofNat n)

/-! ### Helper lemmas -/

/-- Performing one call hands the caller back the adapter it already holds:
the methods take the receiver by shared reference. -/
theorem performCall_eq {A : Type} (tensorNew : List F32 → Device → Except String Tensor)
    (toPy : A → PyVal) (g : GymEnv) (c : Call A) :
    performCall tensorNew toPy g c = g := by
  cases c <;> rfl

/-- Every error value produced by running a `with_gil` closure through
`.map_err(w)` is a wrapped external error. -/
theorem runGil_err_isWrapped {α : Type} (r : GilRes α) (e : CandleErr)
    (h : runGil r = .err e) : e.isWrapped = true := by
  match r with
  | .ok a => simp [runGil] at h
  | .error (.py pe) =>
      simp only [runGil, Outcome.err.injEq] at h
      rw [← h]
      rfl
  | .error (.panicked m) => simp [runGil] at h

/-- A panic observed outside the closure is exactly a panic inside it. -/
theorem runGil_panicked_inv {α : Type} (r : GilRes α) (m : String)
    (h : runGil r = .panicked m) : r = .error (.panicked m) := by
  match r with
  | .ok a => simp [runGil] at h
  | .error (.py pe) => simp [runGil] at h
  | .error (.panicked m') =>
      simp only [runGil, Outcome.panicked.injEq] at h
      rw [h]

end GymAdapter

namespace GymAdapter

/-! ### Claim theorems -/

/-- C10: `copy_with_obs` returns a step whose observation is (a clone of) the
given tensor and whose `action`, `reward`, `is_done` fields equal those of the
receiver; the receiver, a pure value taken by shared reference, is untouched. -/
theorem copy_with_obs_frame {A : Type} (s : Step A) (t : Tensor) :
    (s.copy_with_obs t).obs = t ∧ (s.copy_with_obs t).action = s.action ∧
    (s.copy_with_obs t).reward = s.reward ∧ (s.copy_with_obs t).is_done = s.is_done :=
  ⟨rfl, rfl, rfl, rfl⟩

/-- C3: whenever `step` returns successfully, the `action` field of the
returned `Step` is the very action the caller passed (a clone is what was
marshaled to the external call; the caller's value comes back unchanged). -/
theorem step_returns_given_action {A : Type}
    (tensorNew : List F32 → Device → Except String Tensor)
    (toPy : A → PyVal) (g : GymEnv) (a : A) (s : Step A)
    (h : GymEnv.step tensorNew toPy g a = .ok s) : s.action = a := by
  unfold GymEnv.step at h
  split at h
  · split at h
    · injection h with h2
      subst h2
      rfl
    · exact absurd h (by simp)
  · exact absurd h (by simp)
  · exact absurd h (by simp)

/-- Witness for C3 at a concrete well-behaved environment and action `7`. -/
theorem step_returns_given_action_witness :
    Step.action { obs := { data := [⟨5⟩, ⟨6⟩, ⟨7⟩, ⟨8⟩], device := .Cpu }
                  action := 7
                  reward := ⟨42⟩
                  is_done := false } = (7 : Nat) :=
  step_returns_given_action tensorNewModel pyOfNat goodGym 7 _ rfl

/-- C6: the cached space metadata is immutable: after an arbitrary sequence
of `reset`/`step` calls the accessors return exactly what they returned at
construction.  Both accessors are total functions into plain values, so they
have no side effects and cannot fail. -/
theorem space_metadata_immutable {A : Type}
    (tensorNew : List F32 → Device → Except String Tensor)
    (toPy : A → PyVal) (g : GymEnv) (cs : List (Call A)) :
    GymEnv.actionSpace (runSession tensorNew toPy g cs) = GymEnv.actionSpace g ∧
    GymEnv.observationSpace (runSession tensorNew toPy g cs) = GymEnv.observationSpace g := by
  induction cs generalizing g with
  | nil => exact ⟨rfl, rfl⟩
  | cons c cs ih =>
      rw [runSession, performCall_eq]
      exact ih g

/-- C1: for the environment object the external factory returns during
`create(name)`: if its `action_space` exposes a discrete count attribute `n`
(that extracts to `k`), the cached action-space size is `k`; otherwise the
cached size is the first element of the extracted shape sequence. -/
theorem action_space_size_from_factory (rt : PyRuntime) (name : String)
    (gym : PyGymModule) (mk : String → PyResult EnvObj) (env : EnvObj)
    (aso : SpaceObj) (g : GymEnv)
    (h1 : rt.gymImport = .ok gym) (h2 : gym.make = .ok mk)
    (h3 : mk name = .ok env) (h4 : env.action_space = .ok aso)
    (hg : GymEnv.new rt name = .ok g) :
    (∀ v k, aso.n = .ok v → extractUsize v = .ok k → g.actionSpace = k) ∧
    (∀ e shp k rest, aso.n = .error e → aso.shape = .ok shp →
      extractUsizeVec shp = .ok (k :: rest) → g.actionSpace = k) := by
  unfold GymEnv.new at hg
  simp only [h1, h2, h3, h4, pyM, bind, Except.bind] at hg
  constructor
  · intro v k hn hk
    simp only [hn, hk, pyM, bind, Except.bind] at hg
    cases h5 : env.observation_space with
    | error e => simp [h5, pyM, runGil, pure, Except.pure] at hg
    | ok oso =>
        cases h6 : oso.shape with
        | error e => simp [h5, h6, pyM, runGil, pure, Except.pure] at hg
        | ok oshp =>
            cases h7 : extractUsizeVec oshp with
            | error e => simp [h5, h6, h7, pyM, runGil, pure, Except.pure] at hg
            | ok l =>
                simp only [h5, h6, h7, pyM, bind, Except.bind, runGil, pure, Except.pure] at hg
                injection hg with h8
                subst h8
                rfl
  · intro e shp k rest hn hs hx
    simp only [hn, hs, hx, pyM, bind, Except.bind] at hg
    cases h5 : env.observation_space with
    | error e2 => simp [h5, pyM, runGil, pure, Except.pure] at hg
    | ok oso =>
        cases h6 : oso.shape with
        | error e2 => simp [h5, h6, pyM, runGil, pure, Except.pure] at hg
        | ok oshp =>
            cases h7 : extractUsizeVec oshp with
            | error e2 => simp [h5, h6, h7, pyM, runGil, pure, Except.pure] at hg
            | ok l =>
                simp only [h5, h6, h7, pyM, bind, Except.bind, runGil, pure, Except.pure] at hg
                injection hg with h8
                subst h8
                rfl

/-- Witness for C1: an environment exposing discrete `n == 4` yields an
adapter with action-space size 4, and one exposing only shape `(6,)` yields
size 6. -/
theorem action_space_size_from_factory_witness :
    GymEnv.actionSpace goodGym = 4 ∧ GymEnv.actionSpace shapeOnlyGym = 6 :=
  ⟨(action_space_size_from_factory goodRt "CartPole-v1" _ (fun _ => .ok goodEnv)
      goodEnv discreteSpace goodGym rfl rfl rfl rfl rfl).1 (.int 4) 4 rfl rfl,
   (action_space_size_from_factory shapeOnlyRt "Pendulum-v1" _ (fun _ => .ok shapeOnlyEnv)
      shapeOnlyEnv shapeOnlySpace shapeOnlyGym rfl rfl rfl rfl rfl).2
      ⟨"AttributeError: 'Box' object has no attribute 'n'"⟩ (.tuple [.int 6]) 6 [] rfl rfl rfl⟩


/-- The single situation in which `GymEnv::new` panics: the whole chain up to
the action space succeeded, the space exposes no `n` attribute, and its shape
extracted as the empty sequence — so `action_space[0]` indexes an empty
`Vec`. -/
def newPanicCondition (rt : PyRuntime) (name : String) : Prop :=
  ∃ (gym : PyGymModule) (mk : String → PyResult EnvObj) (env : EnvObj)
    (aso : SpaceObj) (e : PyErr) (shp : PyVal),
    rt.gymImport = .ok gym ∧ gym.make = .ok mk ∧ mk name = .ok env ∧
    env.action_space = .ok aso ∧ aso.n = .error e ∧ aso.shape = .ok shp ∧
    extractUsizeVec shp = .ok []


/-- C2 (amended): `create(name)` either returns an adapter or an
ExternalCallError (every error value it returns wraps the underlying Python
cause) — except that, when the action space exposes no `n` attribute and its
shape sequence is extracted as empty, it panics on the out-of-bounds index
instead of returning an error. -/
theorem create_errors_wrapped_or_empty_shape_panic (rt : PyRuntime) (name : String) :
    (∀ e, GymEnv.new rt name = .err e → e.isWrapped = true) ∧
    (∀ m, GymEnv.new rt name = .panicked m →
      newPanicCondition rt name ∧
      m = "index out of bounds: the len is 0 but the index is 0") := by
  constructor
  · intro e h
    unfold GymEnv.new at h
    exact runGil_err_isWrapped _ e h
  · intro m hm
    unfold GymEnv.new at hm
    replace hm := runGil_panicked_inv _ m hm
    cases h1 : rt.gymImport with
    | error e1 => simp [h1, pyM, bind, Except.bind] at hm
    | ok gym =>
      cases h2 : gym.make with
      | error e1 => simp [h1, h2, pyM, bind, Except.bind] at hm
      | ok mk =>
        cases h3 : mk name with
        | error e1 => simp [h1, h2, h3, pyM, bind, Except.bind] at hm
        | ok env =>
          cases h4 : env.action_space with
          | error e1 => simp [h1, h2, h3, h4, pyM, bind, Except.bind] at hm
          | ok aso =>
            cases hn : aso.n with
            | ok v =>
              cases hk : extractUsize v with
              | error e1 => simp [h1, h2, h3, h4, hn, hk, pyM, bind, Except.bind] at hm
              | ok k =>
                cases h5 : env.observation_space with
                | error e1 =>
                    simp [h1, h2, h3, h4, hn, hk, h5, pyM, bind, Except.bind] at hm
                | ok oso =>
                  cases h6 : oso.shape with
                  | error e1 =>
                      simp [h1, h2, h3, h4, hn, hk, h5, h6, pyM, bind, Except.bind] at hm
                  | ok oshp =>
                    cases h7 : extractUsizeVec oshp with
                    | error e1 =>
                        simp [h1, h2, h3, h4, hn, hk, h5, h6, h7, pyM, bind, Except.bind] at hm
                    | ok l =>
                        simp [h1, h2, h3, h4, hn, hk, h5, h6, h7, pyM, bind, Except.bind,
                          pure, Except.pure] at hm
            | error e0 =>
              cases hs : aso.shape with
              | error e1 => simp [h1, h2, h3, h4, hn, hs, pyM, bind, Except.bind] at hm
              | ok shp =>
                cases hx : extractUsizeVec shp with
                | error e1 => simp [h1, h2, h3, h4, hn, hs, hx, pyM, bind, Except.bind] at hm
                | ok l =>
                  cases l with
                  | nil =>
                      simp only [h1, h2, h3, h4, hn, hs, hx, pyM, bind, Except.bind,
                        Except.error.injEq, GilFail.panicked.injEq] at hm
                      exact ⟨⟨gym, mk, env, aso, e0, shp, h1, h2, h3, h4, hn, hs, hx⟩, hm.symm⟩
                  | cons a l2 =>
                    cases h5 : env.observation_space with
                    | error e1 =>
                        simp [h1, h2, h3, h4, hn, hs, hx, h5, pyM, bind, Except.bind,
                          pure, Except.pure] at hm
                    | ok oso =>
                      cases h6 : oso.shape with
                      | error e1 =>
                          simp [h1, h2, h3, h4, hn, hs, hx, h5, h6, pyM, bind, Except.bind,
                            pure, Except.pure] at hm
                      | ok oshp =>
                        cases h7 : extractUsizeVec oshp with
                        | error e1 =>
                            simp [h1, h2, h3, h4, hn, hs, hx, h5, h6, h7, pyM, bind,
                              Except.bind, pure, Except.pure] at hm
                        | ok l3 =>
                            simp [h1, h2, h3, h4, hn, hs, hx, h5, h6, h7, pyM, bind,
                              Except.bind, pure, Except.pure] at hm

/-- Counterexample to C2 as stated: an environment whose action space has no
`n` attribute and an empty shape sequence makes `create` panic rather than
return an ExternalCallError. -/
theorem create_panics_on_empty_shape :
    GymEnv.new emptyShapeRt "CartPole-v1" =
      .panicked "index out of bounds: the len is 0 but the index is 0" := rfl

/-- Witness for C2 (amended) at two concrete runtimes: a missing environment
name gives a wrapped error, and the empty-shape runtime satisfies the panic
condition. -/
theorem create_errors_wrapped_or_empty_shape_panic_witness :
    CandleErr.isWrapped
      (CandleErr.wrapped ⟨"NameNotFound: Environment nope doesn't exist"⟩) = true ∧
    (newPanicCondition emptyShapeRt "x" ∧
      "index out of bounds: the len is 0 but the index is 0" =
        "index out of bounds: the len is 0 but the index is 0") :=
  ⟨(create_errors_wrapped_or_empty_shape_panic missingEnvRt "nope").1 _ rfl,
   (create_errors_wrapped_or_empty_shape_panic emptyShapeRt "x").2 _ rfl⟩


/-- C5: `reset(seed)` calls the external reset with no positional arguments
and the seed as the keyword argument named "seed" (its outcome depends only on
the external call at exactly that argument list); it extracts only the first
element of the returned pair, discarding the rest, and converts it into a
tensor on the CPU device; if the external call raises or the first element is
not a flat f32 sequence, it fails with a wrapped ExternalCallError. -/
theorem reset_seed_kwarg_first_element (tensorNew : List F32 → Device → Except String Tensor)
    (g g' : GymEnv) (seed : Nat) :
    (g.env.reset [] [("seed", PyVal.int (Int.ofNat seed))] =
        g'.env.reset [] [("seed", PyVal.int (Int.ofNat seed))] →
      GymEnv.reset tensorNew g seed = GymEnv.reset tensorNew g' seed) ∧
    (∀ o rest xs,
      g.env.reset [] [("seed", PyVal.int (Int.ofNat seed))] = .ok (.tuple (o :: rest)) →
      extractF32Vec o = .ok xs →
      GymEnv.reset tensorNewModel g seed = .ok { data := xs, device := .Cpu }) ∧
    (∀ e, g.env.reset [] [("seed", PyVal.int (Int.ofNat seed))] = .error e →
      GymEnv.reset tensorNew g seed = .err (.wrapped e)) ∧
    (∀ o rest e,
      g.env.reset [] [("seed", PyVal.int (Int.ofNat seed))] = .ok (.tuple (o :: rest)) →
      extractF32Vec o = .error e →
      GymEnv.reset tensorNew g seed = .err (.wrapped e)) := by
  refine ⟨fun h => ?_, fun o rest xs h hx => ?_, fun e h => ?_, fun o rest e h hx => ?_⟩
  · unfold GymEnv.reset
    rw [h]
  · unfold GymEnv.reset
    rw [h]
    simp [hx, pyM, bind, Except.bind, runGil, get_item, List.get?, tensorNewModel,
      pure, Except.pure]
  · unfold GymEnv.reset
    rw [h]
    simp [pyM, bind, Except.bind, runGil]
  · unfold GymEnv.reset
    rw [h]
    simp [hx, pyM, bind, Except.bind, runGil, get_item, List.get?]

/-- Witness for C5: a concrete successful reset (info dict discarded) and a
concrete raising reset (wrapped error). -/
theorem reset_seed_kwarg_first_element_witness :
    GymEnv.reset tensorNewModel goodGym 42 =
      .ok { data := [⟨1⟩, ⟨2⟩, ⟨3⟩, ⟨4⟩], device := .Cpu } ∧
    GymEnv.reset tensorNewModel failGym 7 =
      .err (.wrapped ⟨"RuntimeError: reset raised"⟩) :=
  ⟨(reset_seed_kwarg_first_element tensorNewModel goodGym goodGym 42).2.1
      (.f32seq [⟨1⟩, ⟨2⟩, ⟨3⟩, ⟨4⟩]) [.other "info"] [⟨1⟩, ⟨2⟩, ⟨3⟩, ⟨4⟩] rfl rfl,
   (reset_seed_kwarg_first_element tensorNewModel failGym failGym 7).2.2.1
      ⟨"RuntimeError: reset raised"⟩ rfl⟩

/-- C4: a successful `step` is assembled from exactly the positional elements
0 (observation, flat f32 sequence, made into a CPU tensor), 1 (f64 reward)
and 2 (boolean done flag) of the external call's returned tuple, with any
trailing elements ignored; an external raise yields a wrapped
ExternalCallError, and so does an extraction failure at any of these indices:
a missing index (tuple shorter than 3) or a present element that does not
extract at the expected type (index 0 not a flat f32 sequence, index 1 not an
f64, index 2 not a boolean). -/
theorem step_extracts_three_positional_elements {A : Type} (tensorNew : List F32 → Device → Except String Tensor)
    (toPy : A → PyVal) (g : GymEnv) (a : A) :
    (∀ o r d rest xs rw dn,
      g.env.step (toPy a) = .ok (.tuple (o :: r :: d :: rest)) →
      extractF32Vec o = .ok xs → extractF64 r = .ok rw → extractBool d = .ok dn →
      GymEnv.step tensorNewModel toPy g a =
        .ok { obs := { data := xs, device := .Cpu }
              action := a, reward := rw, is_done := dn }) ∧
    (∀ e, g.env.step (toPy a) = .error e →
      GymEnv.step tensorNew toPy g a = .err (.wrapped e)) ∧
    (∀ o rest e, g.env.step (toPy a) = .ok (.tuple (o :: rest)) →
      extractF32Vec o = .error e →
      GymEnv.step tensorNew toPy g a = .err (.wrapped e)) ∧
    (∀ o r rest xs e, g.env.step (toPy a) = .ok (.tuple (o :: r :: rest)) →
      extractF32Vec o = .ok xs → extractF64 r = .error e →
      GymEnv.step tensorNew toPy g a = .err (.wrapped e)) ∧
    (∀ o r d rest xs rw e, g.env.step (toPy a) = .ok (.tuple (o :: r :: d :: rest)) →
      extractF32Vec o = .ok xs → extractF64 r = .ok rw → extractBool d = .error e →
      GymEnv.step tensorNew toPy g a = .err (.wrapped e)) ∧
    (∀ v, g.env.step (toPy a) = .ok (.tuple v) → v.length < 3 →
      (GymEnv.step tensorNew toPy g a).isErrWrapped = true) := by
  refine ⟨fun o r d rest xs rw dn h hx hr hd => ?_, fun e h => ?_,
    fun o rest e h hx => ?_, fun o r rest xs e h hx hr => ?_,
    fun o r d rest xs rw e h hx hr hd => ?_, fun v h hlen => ?_⟩
  · unfold GymEnv.step
    rw [h]
    simp [hx, hr, hd, pyM, bind, Except.bind, runGil, get_item, List.get?, tensorNewModel,
      pure, Except.pure]
  · unfold GymEnv.step
    rw [h]
    simp [pyM, bind, Except.bind, runGil]
  · unfold GymEnv.step
    rw [h]
    simp [hx, pyM, bind, Except.bind, runGil, get_item, List.get?]
  · unfold GymEnv.step
    rw [h]
    simp [hx, hr, pyM, bind, Except.bind, runGil, get_item, List.get?]
  · unfold GymEnv.step
    rw [h]
    simp [hx, hr, hd, pyM, bind, Except.bind, runGil, get_item, List.get?]
  · unfold GymEnv.step
    rw [h]
    rcases v with _ | ⟨o, _ | ⟨r, _ | ⟨d, rest⟩⟩⟩
    · simp [pyM, bind, Except.bind, runGil, get_item, List.get?, Outcome.isErrWrapped]
    · cases hx : extractF32Vec o with
      | error e =>
          simp [hx, pyM, bind, Except.bind, runGil, get_item, List.get?,
            Outcome.isErrWrapped]
      | ok xs =>
          simp [hx, pyM, bind, Except.bind, runGil, get_item, List.get?,
            Outcome.isErrWrapped]
    · cases hx : extractF32Vec o with
      | error e =>
          simp [hx, pyM, bind, Except.bind, runGil, get_item, List.get?,
            Outcome.isErrWrapped]
      | ok xs =>
          cases hr : extractF64 r with
          | error e =>
              simp [hx, hr, pyM, bind, Except.bind, runGil, get_item, List.get?,
                Outcome.isErrWrapped]
          | ok rw =>
              simp [hx, hr, pyM, bind, Except.bind, runGil, get_item, List.get?,
                Outcome.isErrWrapped]
    · simp at hlen
      omega

/-- Witness for C4: the Gymnasium 5-tuple's trailing truncation flag and info
dict are ignored on success; a raising step, a present but non-f64 element at
index 1, and a too-short tuple all give a wrapped error. -/
theorem step_extracts_three_positional_elements_witness :
    GymEnv.step tensorNewModel pyOfNat goodGym 3 =
      .ok { obs := { data := [⟨5⟩, ⟨6⟩, ⟨7⟩, ⟨8⟩], device := .Cpu }
            action := 3, reward := ⟨42⟩, is_done := false } ∧
    GymEnv.step tensorNewModel pyOfNat failGym 3 =
      .err (.wrapped ⟨"RuntimeError: step raised"⟩) ∧
    GymEnv.step tensorNewModel pyOfNat illTypedGym 0 =
      .err (.wrapped ⟨"TypeError: 'f64' expected"⟩) ∧
    (GymEnv.step tensorNewModel pyOfNat shortTupleGym 0).isErrWrapped = true :=
  ⟨(step_extracts_three_positional_elements tensorNewModel pyOfNat goodGym 3).1
      (.f32seq [⟨5⟩, ⟨6⟩, ⟨7⟩, ⟨8⟩]) (.f64 ⟨42⟩) (.pybool false)
      [.pybool true, .other "info"] [⟨5⟩, ⟨6⟩, ⟨7⟩, ⟨8⟩] ⟨42⟩ false rfl rfl rfl rfl,
   (step_extracts_three_positional_elements tensorNewModel pyOfNat failGym 3).2.1
      ⟨"RuntimeError: step raised"⟩ rfl,
   (step_extracts_three_positional_elements tensorNewModel pyOfNat illTypedGym 0).2.2.2.1
      (.f32seq [⟨9⟩]) (.other "not-a-float") [.pybool false] [⟨9⟩]
      ⟨"TypeError: 'f64' expected"⟩ rfl rfl rfl,
   (step_extracts_three_positional_elements tensorNewModel pyOfNat shortTupleGym 0).2.2.2.2.2
      [.f32seq [⟨9⟩]] rfl (by decide)⟩


/-- C7: every failure raised at the external boundary (in `create`, `reset`
or `step`) surfaces as a wrapped ExternalCallError, while a failure of the
host tensor constructor after a successful extraction surfaces as the host
library's own error, not wrapped: `create` errors are always wrapped; for
`reset` and `step`, a tensor-construction failure yields exactly the native
error, and when the tensor constructor cannot fail every error is wrapped.
No retry is possible: each method consults each external operation at one
argument, once (the methods are functions of those single consultations). -/
theorem error_wrapping_discipline {A : Type} (rt : PyRuntime) (name : String)
    (tensorNew : List F32 → Device → Except String Tensor)
    (toPy : A → PyVal) (g : GymEnv) (a : A) (seed : Nat) :
    (∀ e, GymEnv.new rt name = .err e → e.isWrapped = true) ∧
    (∀ o rest xs m,
      g.env.reset [] [("seed", PyVal.int (Int.ofNat seed))] = .ok (.tuple (o :: rest)) →
      extractF32Vec o = .ok xs → tensorNew xs Device.Cpu = .error m →
      GymEnv.reset tensorNew g seed = .err (.native m)) ∧
    ((∀ xs d m, tensorNew xs d ≠ .error m) →
      ∀ e, GymEnv.reset tensorNew g seed = .err e → e.isWrapped = true) ∧
    (∀ o r d rest xs rw dn m,
      g.env.step (toPy a) = .ok (.tuple (o :: r :: d :: rest)) →
      extractF32Vec o = .ok xs → extractF64 r = .ok rw → extractBool d = .ok dn →
      tensorNew xs Device.Cpu = .error m →
      GymEnv.step tensorNew toPy g a = .err (.native m)) ∧
    ((∀ xs d m, tensorNew xs d ≠ .error m) →
      ∀ e, GymEnv.step tensorNew toPy g a = .err e → e.isWrapped = true) := by
  refine ⟨fun e h => ?_, fun o rest xs m h hx htn => ?_, fun hTN e he => ?_,
    fun o r d rest xs rw dn m h hx hr hd htn => ?_, fun hTN e he => ?_⟩
  · unfold GymEnv.new at h
    exact runGil_err_isWrapped _ e h
  · unfold GymEnv.reset
    rw [h]
    simp [hx, htn, pyM, bind, Except.bind, runGil, get_item, List.get?]
  · unfold GymEnv.reset at he
    split at he
    · split at he
      · exact absurd he (by simp)
      · next m hm => exact absurd hm (hTN _ _ _)
    · next e2 hs =>
        injection he with h2
        subst h2
        exact runGil_err_isWrapped _ _ hs
    · exact absurd he (by simp)
  · unfold GymEnv.step
    rw [h]
    simp [hx, hr, hd, htn, pyM, bind, Except.bind, runGil, get_item, List.get?,
      pure, Except.pure]
  · unfold GymEnv.step at he
    split at he
    · split at he
      · exact absurd he (by simp)
      · next m hm => exact absurd hm (hTN _ _ _)
    · next e2 hs =>
        injection he with h2
        subst h2
        exact runGil_err_isWrapped _ _ hs
    · exact absurd he (by simp)

/-- Witness for C7 across the three operations: wrapped lookup failure on
create, native tensor errors on reset/step, wrapped external raises on
reset/step. -/
theorem error_wrapping_discipline_witness :
    CandleErr.isWrapped
      (CandleErr.wrapped ⟨"NameNotFound: Environment nope doesn't exist"⟩) = true ∧
    GymEnv.reset failTensorNew goodGym 42 = .err (.native "shape mismatch") ∧
    CandleErr.isWrapped (CandleErr.wrapped ⟨"RuntimeError: reset raised"⟩) = true ∧
    GymEnv.step failTensorNew pyOfNat goodGym 3 = .err (.native "shape mismatch") ∧
    CandleErr.isWrapped (CandleErr.wrapped ⟨"RuntimeError: step raised"⟩) = true :=
  ⟨(error_wrapping_discipline missingEnvRt "nope" tensorNewModel pyOfNat goodGym 3 7).1
      (CandleErr.wrapped ⟨"NameNotFound: Environment nope doesn't exist"⟩) rfl,
   (error_wrapping_discipline missingEnvRt "x" failTensorNew pyOfNat goodGym 3 42).2.1
      (.f32seq [⟨1⟩, ⟨2⟩, ⟨3⟩, ⟨4⟩]) [.other "info"] [⟨1⟩, ⟨2⟩, ⟨3⟩, ⟨4⟩]
      "shape mismatch" rfl rfl rfl,
   (error_wrapping_discipline missingEnvRt "x" tensorNewModel pyOfNat failGym 3 7).2.2.1
      (fun _ _ _ h => Except.noConfusion h)
      (CandleErr.wrapped ⟨"RuntimeError: reset raised"⟩) rfl,
   (error_wrapping_discipline missingEnvRt "x" failTensorNew pyOfNat goodGym 3 42).2.2.2.1
      (.f32seq [⟨5⟩, ⟨6⟩, ⟨7⟩, ⟨8⟩]) (.f64 ⟨42⟩) (.pybool false)
      [.pybool true, .other "info"] [⟨5⟩, ⟨6⟩, ⟨7⟩, ⟨8⟩] ⟨42⟩ false
      "shape mismatch" rfl rfl rfl rfl rfl,
   (error_wrapping_discipline missingEnvRt "x" tensorNewModel pyOfNat failGym 3 7).2.2.2.2
      (fun _ _ _ h => Except.noConfusion h)
      (CandleErr.wrapped ⟨"RuntimeError: step raised"⟩) rfl⟩

/-- The external collaborator contract the spec assigns to the environment:
every successful reset returns a pair whose first element is a flat f32
sequence whose length is the product of the declared observation-space
dimensions. -/
def HonorsObsContract (g : GymEnv) : Prop :=
  ∀ args kwargs v, g.env.reset args kwargs = .ok v →
    ∃ o rest xs, v = .tuple (o :: rest) ∧ extractF32Vec o = .ok xs ∧
      xs.length = (GymEnv.observationSpace g).prod

/-- C8: on an environment honoring its observation contract, every successful
`reset` — whatever the seed — returns a tensor whose element count equals the
product of the dimensions reported by `observation_space()`. -/
theorem reset_shape_consistency (g : GymEnv) (seed : Nat) (t : Tensor)
    (hc : HonorsObsContract g)
    (h : GymEnv.reset tensorNewModel g seed = .ok t) :
    t.elem_count = (GymEnv.observationSpace g).prod := by
  cases hr : g.env.reset [] [("seed", PyVal.int (Int.ofNat seed))] with
  | error e =>
      unfold GymEnv.reset at h
      rw [hr] at h
      simp [pyM, bind, Except.bind, runGil] at h
  | ok v =>
      obtain ⟨o, rest, xs, hv, hx, hlen⟩ := hc _ _ v hr
      subst hv
      unfold GymEnv.reset at h
      rw [hr] at h
      simp [hx, pyM, bind, Except.bind, runGil, get_item, List.get?, tensorNewModel] at h
      rw [← h]
      exact hlen

/-- Witness for C8 at the concrete well-behaved environment (shape (2, 2),
4-element observations) and seed 42. -/
theorem reset_shape_consistency_witness :
    Tensor.elem_count { data := [⟨1⟩, ⟨2⟩, ⟨3⟩, ⟨4⟩], device := .Cpu } =
      (GymEnv.observationSpace goodGym).prod :=
  reset_shape_consistency goodGym 42 _
    (fun _ _ v h => by
      injection h with h2
      subst h2
      exact ⟨_, _, _, rfl, rfl, rfl⟩)
    rfl

end GymAdapter
